import Mathlib

/-!
Shallow embedding of the Tesla Powerwall home-automation integration
(`src/__init__.py`, `src/binary_sensor.py`, `src/const.py`).

The integration has three non-trivial behaviours, each embedded below:
  * a legacy unique-id migration routine (`_async_migrator`),
  * a periodic-refresh / re-login state machine (`async_update_data`,
    `_async_login_and_retry_update_data`, `_async_update_powerwall_data`),
  * a battery-charging binary sensor threshold.
Stateful Python closures become explicit state passing over `RuntimeState`;
raised exceptions become `Except` values; the Home Assistant coordinator's
"keep data on success / keep old data on failure" behaviour is `runCycle`.
-/

namespace Powerwall

/-- Constant `MAX_LOGIN_FAILURES = 5` from `src/__init__.py`. -/
def MAX_LOGIN_FAILURES : Nat := 5

/-- Python `list.index` returning `none` instead of raising `ValueError`:
index of the first occurrence of `x`. -/
def listIndexOf {α : Type _} [DecidableEq α] : List α → α → Option Nat
  | [], _ => none
  | a :: l, x => if a = x then some 0 else (listIndexOf l x).map (· + 1)

/-- Python `str.split("_")` on the underlying character list: split at every
underscore, keeping empty pieces, so `"" ↦ [""]` and `"_" ↦ ["", ""]`. -/
def splitUnderscore : List Char → List (List Char)
  | [] => [[]]
  | c :: rest =>
    match splitUnderscore rest with
    | [] => [[]]
    | p :: ps => if c = '_' then [] :: p :: ps else (c :: p) :: ps

/-- Python `unique_id.split("_")` as a function on `String`. -/
def pySplitUnderscore (s : String) : List String :=
  (splitUnderscore s.data).map String.mk

/-- Result of `_async_migrator` on one registry entry: `noop` models the
`return None` path, `rewrite` the returned new unique id, and `error` the
`ValueError` escaping from `parts[::-1].index(...)` when the nominal-energy
token is absent. -/
inductive MigrateResult where
  | noop
  | rewrite (newUniqueId : String)
  | error
  deriving DecidableEq, Repr

/-- Body of `_async_migrator` (src/__init__.py lines 55-73) acting on the
already-split token list `parts = unique_id.split("_")`:
if `parts[0:len(serials)] == serials` return no rewrite; otherwise find the
last index of `str(nominalEnergy)` in `parts` (via the reversed list, as the
Python does), take everything after it as the device suffix, and rebuild the
id as `"_".join([*serials, *suffix])`. -/
def migratorOnParts (serialNumbers : List String) (nominalEnergy : Nat)
    (parts : List String) : MigrateResult :=
  if parts.take serialNumbers.length = serialNumbers then
    .noop
  else
    match listIndexOf parts.reverse (toString nominalEnergy) with
    | none => .error
    | some revIdx =>
      let normalizedEnergyIndex := parts.length - 1 - revIdx
      let deviceSuffix := parts.drop (normalizedEnergyIndex + 1)
      .rewrite (String.intercalate "_" (serialNumbers ++ deviceSuffix))

/-- Function `_async_migrator` on the unique id string: split on `"_"` then run the
token-level body. -/
def _async_migrator (serialNumbers : List String) (nominalEnergy : Nat)
    (uniqueId : String) : MigrateResult :=
  migratorOnParts serialNumbers nominalEnergy (pySplitUnderscore uniqueId)

/-- Function `call_base_info` (src/__init__.py lines 225-235) sorts the serial numbers
in place before they are stored; Python `list.sort()` on strings is a
lexicographic sort by `≤`, embedded as insertion sort. -/
def sortSerialNumbers (serialNumbers : List String) : List String :=
  List.insertionSort (· ≤ ·) serialNumbers

/-- Modelled from the spec: the per-device `base_unique_id` lives in
`src/entity.py`, which is not part of src/ here (only `binary_sensor.py`
uses it); per the spec's Identity data model it is "derived from sorted
device serial numbers", joined by `"_"` — the same shape `_async_migrator`
produces for an empty device suffix. -/
def baseUniqueId (serialNumbers : List String) : String :=
  String.intercalate "_" (sortSerialNumbers serialNumbers)

/-! ## Periodic refresh and re-login state machine

`async_update_data` and its helpers close over `login_failed_count`, the
`runtime_data` dict entry `POWERWALL_API_CHANGED`, and the coordinator's
cached data; `RuntimeState` makes that mutable state explicit.  A refresh
cycle's inputs are the outcomes of the (at most two) fetches and the one
login the cycle may perform, modelled as `CycleInput`. -/

/-- Outcome of one `_fetch_powerwall_data` executor call, classified by the
exception types `src/__init__.py` catches: success with a snapshot,
`PowerwallUnreachableError`, `AccessDeniedError`, `MissingAttributeError`,
or any other `APIError`. -/
inductive FetchResult (α : Type _) where
  | success (snapshot : α)
  | unreachable
  | accessDenied
  | missingAttribute
  | apiError
  deriving DecidableEq, Repr

/-- Outcome of the `power_wall.login(password)` call inside
`_recreate_powerwall_login`: success, or `AccessDeniedError`. -/
inductive LoginResult where
  | ok
  | accessDenied
  deriving DecidableEq, Repr

/-- The mutable state a refresh cycle reads and writes: the closure variable
`login_failed_count`, the `POWERWALL_API_CHANGED` flag, the coordinator's
cached data (`None` before the first successful refresh), and the number of
persistent notifications created by `_async_handle_api_changed_error`. -/
structure RuntimeState (α : Type _) where
  loginFailedCount : Nat
  apiChanged : Bool
  coordinatorData : Option α
  notificationCount : Nat
  deriving DecidableEq, Repr

/-- The state at the end of `async_setup_entry` before the first refresh:
`login_failed_count = 0` (line 120), `POWERWALL_API_CHANGED: False`
(line 123), no coordinator data yet, no notifications from the refresh
path. -/
def initialState (α : Type _) : RuntimeState α :=
  { loginFailedCount := 0
    apiChanged := false
    coordinatorData := none
    notificationCount := 0 }

/-- The exceptions `_async_update_powerwall_data` lets escape to its caller:
`UpdateFailed` (wrapping `PowerwallUnreachableError`), or a propagated
`AccessDeniedError` / other `APIError`. -/
inductive InnerError where
  | updateFailed
  | accessDenied
  | apiError
  deriving DecidableEq, Repr

/-- How one refresh cycle ends at the coordinator: `UpdateFailed` (transient,
retried next interval) or `ConfigEntryAuthFailed` (terminal, reauth
required). -/
inductive CycleError where
  | updateFailed
  | authFailed
  deriving DecidableEq, Repr

/-- What `async_update_data` hands back to the coordinator: the raised
`CycleError`, or the returned data (which is the cached, possibly-`none`
coordinator data on the schema-drift paths). -/
abbrev CycleResult (α : Type _) := Except CycleError (Option α)

/-- Function `_async_update_powerwall_data` (src/__init__.py lines 202-214): try the
fetch; on `PowerwallUnreachableError` raise `UpdateFailed`; on
`MissingAttributeError` create the notification, set `POWERWALL_API_CHANGED`
and return the cached coordinator data (possibly `None`); let
`AccessDeniedError` and other `APIError`s propagate. -/
def updatePowerwallData {α : Type _} (st : RuntimeState α) (fetch : FetchResult α) :
    RuntimeState α × Except InnerError (Option α) :=
  match fetch with
  | .success d => (st, .ok (some d))
  | .unreachable => (st, .error .updateFailed)
  | .missingAttribute =>
      ({ st with
          apiChanged := true
          notificationCount := st.notificationCount + 1 },
        .ok st.coordinatorData)
  | .accessDenied => (st, .error .accessDenied)
  | .apiError => (st, .error .apiError)

/-- The `except AccessDeniedError` arm of `_async_login_and_retry_update_data`
(lines 145-151): increment `login_failed_count`; if it equals
`MAX_LOGIN_FAILURES` raise `ConfigEntryAuthFailed`, else raise
`UpdateFailed`. -/
def handleRetryAccessDenied {α : Type _} (st : RuntimeState α) :
    RuntimeState α × CycleResult α :=
  let st := { st with loginFailedCount := st.loginFailedCount + 1 }
  if st.loginFailedCount = MAX_LOGIN_FAILURES then
    (st, .error .authFailed)
  else
    (st, .error .updateFailed)

/-- Function `_async_login_and_retry_update_data` (lines 137-156): recreate the login
(whose `AccessDeniedError` lands in the same handler as the retry fetch's),
retry the update, and on success reset `login_failed_count` to 0; an
`UpdateFailed` from the inner routine propagates untouched and any other
`APIError` becomes `UpdateFailed` without touching the counter. -/
def loginAndRetryUpdateData {α : Type _} (st : RuntimeState α)
    (login : LoginResult) (retryFetch : FetchResult α) :
    RuntimeState α × CycleResult α :=
  match login with
  | .accessDenied => handleRetryAccessDenied st
  | .ok =>
    let (st, r) := updatePowerwallData st retryFetch
    match r with
    | .ok d => ({ st with loginFailedCount := 0 }, .ok d)
    | .error .updateFailed => (st, .error .updateFailed)
    | .error .accessDenied => handleRetryAccessDenied st
    | .error .apiError => (st, .error .updateFailed)

/-- The inputs one refresh cycle can consume: the first fetch's outcome and,
for the re-login path, the login outcome and the retried fetch's outcome. -/
structure CycleInput (α : Type _) where
  firstFetch : FetchResult α
  login : LoginResult
  retryFetch : FetchResult α
  deriving DecidableEq, Repr

/-- Function `async_update_data` (lines 158-177): if `POWERWALL_API_CHANGED` is set,
short-circuit to the cached coordinator data without fetching; otherwise
fetch, and on `AccessDeniedError` either raise `ConfigEntryAuthFailed`
(no password configured) or run the re-login retry; any other `APIError`
becomes `UpdateFailed`; on success reset `login_failed_count` to 0. -/
def async_update_data {α : Type _} (hasPassword : Bool) (st : RuntimeState α)
    (inp : CycleInput α) : RuntimeState α × CycleResult α :=
  if st.apiChanged then
    (st, .ok st.coordinatorData)
  else
    let (st, r) := updatePowerwallData st inp.firstFetch
    match r with
    | .ok d => ({ st with loginFailedCount := 0 }, .ok d)
    | .error .accessDenied =>
        if hasPassword then loginAndRetryUpdateData st inp.login inp.retryFetch
        else (st, .error .authFailed)
    | .error .updateFailed => (st, .error .updateFailed)
    | .error .apiError => (st, .error .updateFailed)

/-- One coordinator refresh cycle: run `async_update_data`; when it returns
data the coordinator stores it as its new cached data, and when it raises the
cached data is left as it was. -/
def runCycle {α : Type _} (hasPassword : Bool) (st : RuntimeState α)
    (inp : CycleInput α) : RuntimeState α × CycleResult α :=
  let (st, r) := async_update_data hasPassword st inp
  match r with
  | .ok d => ({ st with coordinatorData := d }, r)
  | .error e => (st, .error e)

/-- A run of consecutive refresh cycles: the final state and the list of
per-cycle results. -/
def runCycles {α : Type _} (hasPassword : Bool) (st : RuntimeState α) :
    List (CycleInput α) → RuntimeState α × List (CycleResult α)
  | [] => (st, [])
  | inp :: rest =>
    let (st1, r) := runCycle hasPassword st inp
    let (st2, rs) := runCycles hasPassword st1 rest
    (st2, r :: rs)

/-! ## Battery-charging binary sensor -/

/-- A meter reading as used by the charging sensor: the net power flowing
into the metered element, in watts. -/
structure Meter where
  instant_power : Int
  deriving DecidableEq, Repr

/-- Modelled from the spec: `tesla_powerwall.Meter.is_sending_to`, the
vendor-library predicate called by `PowerWallChargingStatusSensor.is_on`
(src/binary_sensor.py lines 172-180) but not part of src/.  The code comment
there and the spec both state it "returns true for values greater than 100
watts" of net flow into the meter. -/
def Meter.is_sending_to (m : Meter) : Bool :=
  decide (100 < m.instant_power)

/-- Property `PowerWallChargingStatusSensor.is_on`: the charging sensor is on exactly
when the battery meter `is_sending_to()`. -/
def chargingStatusIsOn (batteryMeter : Meter) : Bool :=
  batteryMeter.is_sending_to

/-! ## Re-login session replacement order -/

/-- Observable actions of `_recreate_powerwall_login` and the retry fetch,
tagged with the session they act on. -/
inductive SessionEvent where
  | closeSession (sid : Nat)
  | createSession (sid : Nat)
  | installSession (sid : Nat)
  | loginOn (sid : Nat)
  | fetchOn (sid : Nat)
  deriving DecidableEq, Repr

/-- The straight-line event trace of `_recreate_powerwall_login`
(src/__init__.py lines 127-135): close the old session, create a new
session, install it into `runtime_data`, then log in on it. -/
def recreateLoginTrace (oldSid newSid : Nat) : List SessionEvent :=
  [.closeSession oldSid, .createSession newSid, .installSession newSid,
    .loginOn newSid]

/-- The event trace of the re-login path of
`_async_login_and_retry_update_data`: the recreate-login trace followed by
the retried fetch against the new session. -/
def loginAndRetryTrace (oldSid newSid : Nat) : List SessionEvent :=
  recreateLoginTrace oldSid newSid ++ [.fetchOn newSid]

/-- Whether event `a` occurs strictly before event `b` in a trace (comparing
the positions of their first occurrences). -/
def eventBefore (trace : List SessionEvent) (a b : SessionEvent) : Bool :=
  match listIndexOf trace a, listIndexOf trace b with
  | some i, some j => i < j
  | _, _ => false

/-! ## Helper lemmas -/

/-- An element that occurs nowhere in a list has no index. -/
theorem listIndexOf_eq_none_of_not_mem {α : Type _} [DecidableEq α] {l : List α}
    {x : α} (h : x ∉ l) : listIndexOf l x = none := by
  induction l with
  | nil => rfl
  | cons a l ih =>
    simp only [List.mem_cons, not_or] at h
    have hax : ¬a = x := fun hax => h.1 hax.symm
    simp [listIndexOf, hax, ih h.2]

/-- An element that occurs somewhere in a list has an index. -/
theorem listIndexOf_isSome_of_mem {α : Type _} [DecidableEq α] {l : List α}
    {x : α} (h : x ∈ l) : ∃ i, listIndexOf l x = some i := by
  induction l with
  | nil => simp at h
  | cons a l ih =>
    by_cases hax : a = x
    · exact ⟨0, by simp [listIndexOf, hax]⟩
    · have hmem : x ∈ l := by
        rcases List.mem_cons.mp h with h1 | h1
        · exact absurd h1.symm hax
        · exact h1
      obtain ⟨i, hi⟩ := ih hmem
      exact ⟨i + 1, by simp [listIndexOf, hax, hi]⟩

/-- Appending `x` to a list avoiding `x` puts its first index at the end. -/
theorem listIndexOf_append_singleton {α : Type _} [DecidableEq α] {l : List α}
    {x : α} (h : x ∉ l) : listIndexOf (l ++ [x]) x = some l.length := by
  induction l with
  | nil => simp [listIndexOf]
  | cons a l ih =>
    simp only [List.mem_cons, not_or] at h
    have hax : ¬a = x := fun hax => h.1 hax.symm
    simp [listIndexOf, hax, ih h.2]

/-- Once `POWERWALL_API_CHANGED` is set, a refresh cycle returns the cached
coordinator data and leaves the whole runtime state untouched, no matter what
the device would have answered. -/
theorem runCycle_degraded {α : Type _} (hasPassword : Bool) (st : RuntimeState α)
    (inp : CycleInput α) (h : st.apiChanged = true) :
    runCycle hasPassword st inp = (st, .ok st.coordinatorData) := by
  rcases st with ⟨c, a, d, n⟩
  cases h
  simp [runCycle, async_update_data]

/-- Once `POWERWALL_API_CHANGED` is set, every later cycle returns the cached
coordinator data and the state never changes again. -/
theorem runCycles_degraded {α : Type _} (hasPassword : Bool) (st : RuntimeState α)
    (inputs : List (CycleInput α)) (h : st.apiChanged = true) :
    runCycles hasPassword st inputs =
      (st, inputs.map fun _ => .ok st.coordinatorData) := by
  induction inputs with
  | nil => rfl
  | cons inp rest ih =>
    simp [runCycles, runCycle_degraded hasPassword st inp h, ih]

/-- A `MissingAttributeError` on a non-degraded cycle sets the degraded flag,
creates exactly one more notification, and returns the cached data unchanged
(the counter reset comes from the `else` branch of `async_update_data`,
which still runs because the error was handled one level below). -/
theorem runCycle_missingAttribute {α : Type _} (hasPassword : Bool)
    (st : RuntimeState α) (inp : CycleInput α) (hA : st.apiChanged = false)
    (hF : inp.firstFetch = .missingAttribute) :
    runCycle hasPassword st inp =
      ({ st with
          loginFailedCount := 0
          apiChanged := true
          notificationCount := st.notificationCount + 1 },
        .ok st.coordinatorData) := by
  simp [runCycle, async_update_data, updatePowerwallData, hA, hF]

/-! ## Claim theorems -/

/-- C1 (counterexample): the migration is NOT `S + X` for every suffix `X`.
When the legacy suffix itself contains the nominal-energy token, the backward
search finds the later occurrence and drops everything up to it: with serials
`["TG000001", "TG000002"]`, nominal energy 13500 and suffix
`["13500", "inverter"]`, the legacy id `"13500_13500_inverter"` is rewritten
to `"TG000001_TG000002_inverter"`, not to
`"TG000001_TG000002_13500_inverter"`. -/
theorem migrator_drops_energy_tokens_inside_suffix :
    pySplitUnderscore "13500_13500_inverter" =
      toString 13500 :: ["13500", "inverter"] ∧
    (pySplitUnderscore "13500_13500_inverter").take 2 ≠
      ["TG000001", "TG000002"] ∧
    _async_migrator ["TG000001", "TG000002"] 13500 "13500_13500_inverter" ≠
      .rewrite (String.intercalate "_"
        (["TG000001", "TG000002"] ++ ["13500", "inverter"])) ∧
    _async_migrator ["TG000001", "TG000002"] 13500 "13500_13500_inverter" =
      .rewrite "TG000001_TG000002_inverter" := by
  refine ⟨by decide, by decide, by decide, by decide⟩

/-- C1 (amended): for every serial list `S`, nominal energy `E` and legacy
suffix `X` that does not itself contain the token `str(E)`, migrating an
identifier whose token list is `str(E) :: X` (and does not start with `S`)
rewrites it to exactly the id built from `S ++ X`; migrating an identifier
whose token list already starts with `S` is a no-op, so the migration is
idempotent. -/
theorem migrator_rewrites_unprefixed_legacy_id (S X : List String) (E : Nat)
    (legacyId prefixedId : String)
    (hTokens : pySplitUnderscore legacyId = toString E :: X)
    (hNoPre : (pySplitUnderscore legacyId).take S.length ≠ S)
    (hFresh : toString E ∉ X)
    (hPre : (pySplitUnderscore prefixedId).take S.length = S) :
    _async_migrator S E legacyId =
      .rewrite (String.intercalate "_" (S ++ X)) ∧
    _async_migrator S E prefixedId = .noop := by
  constructor
  · rw [hTokens] at hNoPre
    have hidx : listIndexOf (toString E :: X).reverse (toString E) =
        some X.length := by
      have hrev : (toString E :: X).reverse = X.reverse ++ [toString E] := by
        simp
      rw [hrev, listIndexOf_append_singleton (by simpa using hFresh)]
      simp
    unfold _async_migrator
    rw [hTokens]
    unfold migratorOnParts
    rw [if_neg hNoPre, hidx]
    simp
  · unfold _async_migrator migratorOnParts
    rw [if_pos hPre]

/-- C1 (witness): the spec's own scenario instantiates the amended claim:
serials `["TG000001", "TG000002"]`, nominal energy 13500, legacy id
`"13500_inverter"` migrates to `"TG000001_TG000002_inverter"`, and the
migrated id is then a no-op. -/
theorem migrator_rewrites_unprefixed_legacy_id_witness :
    (pySplitUnderscore "13500_inverter" = toString 13500 :: ["inverter"] ∧
      (pySplitUnderscore "13500_inverter").take 2 ≠ ["TG000001", "TG000002"] ∧
      toString 13500 ∉ ["inverter"] ∧
      (pySplitUnderscore "TG000001_TG000002_inverter").take 2 =
        ["TG000001", "TG000002"]) ∧
    (_async_migrator ["TG000001", "TG000002"] 13500 "13500_inverter" =
        .rewrite (String.intercalate "_"
          (["TG000001", "TG000002"] ++ ["inverter"])) ∧
      _async_migrator ["TG000001", "TG000002"] 13500
        "TG000001_TG000002_inverter" = .noop) :=
  ⟨⟨by decide, by decide, by decide, by decide⟩,
    migrator_rewrites_unprefixed_legacy_id ["TG000001", "TG000002"]
      ["inverter"] 13500 "13500_inverter" "TG000001_TG000002_inverter"
      (by decide) (by decide) (by decide) (by decide)⟩

/-- C9: the migrator is partial.  On an identifier whose token list neither
starts with the serials nor contains the nominal-energy token at all, the
backward `list.index` search raises (modelled as `.error`) instead of leaving
the identifier unchanged; whenever the token does occur, the migrator totals
out to a rewrite. -/
theorem migrator_errors_without_energy_token (S : List String) (E : Nat)
    (badId goodId : String)
    (hBadPre : (pySplitUnderscore badId).take S.length ≠ S)
    (hBadTok : toString E ∉ pySplitUnderscore badId)
    (hGoodPre : (pySplitUnderscore goodId).take S.length ≠ S)
    (hGoodTok : toString E ∈ pySplitUnderscore goodId) :
    _async_migrator S E badId = .error ∧
    ∃ newId, _async_migrator S E goodId = .rewrite newId := by
  constructor
  · unfold _async_migrator migratorOnParts
    rw [if_neg hBadPre,
      listIndexOf_eq_none_of_not_mem (by simpa using hBadTok)]
  · obtain ⟨i, hi⟩ := listIndexOf_isSome_of_mem (List.mem_reverse.mpr hGoodTok)
    refine ⟨String.intercalate "_" (S ++ (pySplitUnderscore goodId).drop
      ((pySplitUnderscore goodId).length - 1 - i + 1)), ?_⟩
    unfold _async_migrator migratorOnParts
    rw [if_neg hGoodPre, hi]

/-- C9 (witness): `"other_sensor"` contains no `"13500"` token and makes the
migrator raise, while `"13500_inverter"` is rewritten. -/
theorem migrator_errors_without_energy_token_witness :
    ((pySplitUnderscore "other_sensor").take 2 ≠ ["TG000001", "TG000002"] ∧
      toString 13500 ∉ pySplitUnderscore "other_sensor" ∧
      (pySplitUnderscore "13500_inverter").take 2 ≠
        ["TG000001", "TG000002"] ∧
      toString 13500 ∈ pySplitUnderscore "13500_inverter") ∧
    (_async_migrator ["TG000001", "TG000002"] 13500 "other_sensor" =
        .error ∧
      ∃ newId, _async_migrator ["TG000001", "TG000002"] 13500
        "13500_inverter" = .rewrite newId) :=
  ⟨⟨by decide, by decide, by decide, by decide⟩,
    migrator_errors_without_energy_token ["TG000001", "TG000002"] 13500
      "other_sensor" "13500_inverter"
      (by decide) (by decide) (by decide) (by decide)⟩

/-- C5: the battery-charging binary sensor is on exactly when the net power
flow into the battery meter is strictly greater than 100 watts, and off at a
flow of exactly 100. -/
theorem charging_sensor_threshold (m : Meter) :
    (chargingStatusIsOn m = true ↔ 100 < m.instant_power) ∧
    chargingStatusIsOn { instant_power := 100 } = false := by
  constructor
  · simp [chargingStatusIsOn, Meter.is_sending_to]
  · rfl

/-- C8 (counterexample): in the re-login trace the old session is closed at
position 0 and the new session is installed at position 2, so the claim that
"the previous transport is closed only after the new one is installed" fails:
the close comes first. -/
theorem old_transport_closed_before_new_installed :
    eventBefore (loginAndRetryTrace 0 1) (.closeSession 0)
      (.installSession 1) = true ∧
    eventBefore (loginAndRetryTrace 0 1) (.installSession 1)
      (.closeSession 0) = false := by
  refine ⟨rfl, rfl⟩

/-- C8 (amended): during re-login the transport is fully replaced — the new
session is created, installed into the runtime data and logged in — before
any fetch is attempted against it; however the previous transport is closed
first, before the new one is created, so there is a window in which only the
already-closed old session exists. -/
theorem transport_replaced_before_retry_fetch (oldSid newSid : Nat) :
    eventBefore (loginAndRetryTrace oldSid newSid) (.createSession newSid)
      (.fetchOn newSid) = true ∧
    eventBefore (loginAndRetryTrace oldSid newSid) (.installSession newSid)
      (.fetchOn newSid) = true ∧
    eventBefore (loginAndRetryTrace oldSid newSid) (.loginOn newSid)
      (.fetchOn newSid) = true ∧
    eventBefore (loginAndRetryTrace oldSid newSid) (.closeSession oldSid)
      (.createSession newSid) = true := by
  refine ⟨?_, ?_, ?_, ?_⟩ <;>
    simp [eventBefore, loginAndRetryTrace, recreateLoginTrace, listIndexOf]

/-- C4: if the fetch fails with `PowerwallUnreachableError`, the cycle
reports `UpdateFailed` (transient) and the whole runtime state — counter,
flags and cached snapshot — is exactly what it was before the cycle. -/
theorem unreachable_cycle_preserves_snapshot {α : Type _} (hasPassword : Bool)
    (st : RuntimeState α) (inp : CycleInput α)
    (hA : st.apiChanged = false) (hF : inp.firstFetch = .unreachable) :
    runCycle hasPassword st inp = (st, .error .updateFailed) := by
  simp [runCycle, async_update_data, updatePowerwallData, hA, hF]

/-- C4 (witness): a concrete unreachable cycle keeps the cached snapshot
`some 7` and the counter 2 untouched. -/
theorem unreachable_cycle_preserves_snapshot_witness :
    ((⟨2, false, some 7, 0⟩ : RuntimeState Nat).apiChanged = false ∧
      (⟨.unreachable, .ok, .success 9⟩ : CycleInput Nat).firstFetch =
        .unreachable) ∧
    runCycle true (⟨2, false, some 7, 0⟩ : RuntimeState Nat)
      ⟨.unreachable, .ok, .success 9⟩ =
      (⟨2, false, some 7, 0⟩, .error .updateFailed) :=
  ⟨⟨rfl, rfl⟩, unreachable_cycle_preserves_snapshot true _ _ rfl rfl⟩

/-- C6: with no password configured, an `AccessDeniedError` during a refresh
is immediately terminal (`ConfigEntryAuthFailed`) on that same cycle, with no
re-login retry and the failure counter untouched. -/
theorem no_password_access_denied_is_terminal {α : Type _}
    (st : RuntimeState α) (inp : CycleInput α)
    (hA : st.apiChanged = false) (hF : inp.firstFetch = .accessDenied) :
    runCycle false st inp = (st, .error .authFailed) := by
  simp [runCycle, async_update_data, updatePowerwallData, hA, hF]

/-- C6 (witness): a concrete access-denied cycle without a password is
terminal and leaves the state untouched. -/
theorem no_password_access_denied_is_terminal_witness :
    ((⟨1, false, some 7, 0⟩ : RuntimeState Nat).apiChanged = false ∧
      (⟨.accessDenied, .ok, .success 9⟩ : CycleInput Nat).firstFetch =
        .accessDenied) ∧
    runCycle false (⟨1, false, some 7, 0⟩ : RuntimeState Nat)
      ⟨.accessDenied, .ok, .success 9⟩ =
      (⟨1, false, some 7, 0⟩, .error .authFailed) :=
  ⟨⟨rfl, rfl⟩, no_password_access_denied_is_terminal _ _ rfl rfl⟩

/-- C2: with a password configured, each access-denied during the
post-relogin retry (whether at the login itself or at the retried fetch)
increments the consecutive-failure counter; the cycle raises the terminal
`ConfigEntryAuthFailed` exactly when the incremented counter reaches
`MAX_LOGIN_FAILURES = 5` and a transient `UpdateFailed` otherwise; a
successful retry resets the counter to 0; any other device-API error
(generic `APIError`, or unreachable) during the retry is transient and
leaves the counter untouched. -/
theorem relogin_retry_failure_counter {α : Type _} (st : RuntimeState α)
    (d : α) (hA : st.apiChanged = false) :
    (∀ rf : FetchResult α,
      runCycle true st ⟨.accessDenied, .accessDenied, rf⟩ =
        ({ st with loginFailedCount := st.loginFailedCount + 1 },
          if st.loginFailedCount + 1 = MAX_LOGIN_FAILURES then
            .error .authFailed
          else .error .updateFailed)) ∧
    (runCycle true st ⟨.accessDenied, .ok, .accessDenied⟩ =
      ({ st with loginFailedCount := st.loginFailedCount + 1 },
        if st.loginFailedCount + 1 = MAX_LOGIN_FAILURES then
          .error .authFailed
        else .error .updateFailed)) ∧
    (runCycle true st ⟨.accessDenied, .ok, .success d⟩ =
      ({ st with loginFailedCount := 0, coordinatorData := some d },
        .ok (some d))) ∧
    (runCycle true st ⟨.accessDenied, .ok, .apiError⟩ =
      (st, .error .updateFailed)) ∧
    (runCycle true st ⟨.accessDenied, .ok, .unreachable⟩ =
      (st, .error .updateFailed)) := by
  refine ⟨fun rf => ?_, ?_, ?_, ?_, ?_⟩ <;>
    by_cases hc : st.loginFailedCount + 1 = MAX_LOGIN_FAILURES <;>
      simp [runCycle, async_update_data, updatePowerwallData,
        loginAndRetryUpdateData, handleRetryAccessDenied, hA, hc]

/-- C2 (witness): from a state with 4 consecutive failures, a 5th
access-denied is terminal; a success resets the counter; a generic API error
leaves it at 4. -/
theorem relogin_retry_failure_counter_witness :
    (⟨4, false, some 7, 0⟩ : RuntimeState Nat).apiChanged = false ∧
    ((∀ rf : FetchResult Nat,
        runCycle true (⟨4, false, some 7, 0⟩ : RuntimeState Nat)
          ⟨.accessDenied, .accessDenied, rf⟩ =
          (⟨5, false, some 7, 0⟩, .error .authFailed)) ∧
      (runCycle true (⟨4, false, some 7, 0⟩ : RuntimeState Nat)
          ⟨.accessDenied, .ok, .accessDenied⟩ =
          (⟨5, false, some 7, 0⟩, .error .authFailed)) ∧
      (runCycle true (⟨4, false, some 7, 0⟩ : RuntimeState Nat)
          ⟨.accessDenied, .ok, .success 9⟩ =
          (⟨0, false, some 9, 0⟩, .ok (some 9))) ∧
      (runCycle true (⟨4, false, some 7, 0⟩ : RuntimeState Nat)
          ⟨.accessDenied, .ok, .apiError⟩ =
          (⟨4, false, some 7, 0⟩, .error .updateFailed)) ∧
      (runCycle true (⟨4, false, some 7, 0⟩ : RuntimeState Nat)
          ⟨.accessDenied, .ok, .unreachable⟩ =
          (⟨4, false, some 7, 0⟩, .error .updateFailed))) :=
  ⟨rfl, relogin_retry_failure_counter (⟨4, false, some 7, 0⟩ : RuntimeState Nat)
    9 rfl⟩

/-- C7: serial numbers are sorted before identifiers are built, so for any
two permutations of the same serial multiset the sorted list, the derived
base unique id, and every legacy-id migration result are identical. -/
theorem identifier_derivation_order_independent (l1 l2 : List String)
    (h : l1.Perm l2) :
    sortSerialNumbers l1 = sortSerialNumbers l2 ∧
    baseUniqueId l1 = baseUniqueId l2 ∧
    ∀ (E : Nat) (uniqueId : String),
      _async_migrator (sortSerialNumbers l1) E uniqueId =
        _async_migrator (sortSerialNumbers l2) E uniqueId := by
  have hs : sortSerialNumbers l1 = sortSerialNumbers l2 := by
    unfold sortSerialNumbers
    exact List.eq_of_perm_of_sorted
      (((List.perm_insertionSort _ l1).trans h).trans
        (List.perm_insertionSort _ l2).symm)
      (List.sorted_insertionSort _ l1) (List.sorted_insertionSort _ l2)
  exact ⟨hs, by rw [baseUniqueId, baseUniqueId, hs],
    fun E uniqueId => by rw [hs]⟩

/-- C7 (witness): the two orders of the spec's serial pair yield the same
sorted list, base id, and migration function. -/
theorem identifier_derivation_order_independent_witness :
    (["TG000002", "TG000001"] : List String).Perm ["TG000001", "TG000002"] ∧
    (sortSerialNumbers ["TG000002", "TG000001"] =
        sortSerialNumbers ["TG000001", "TG000002"] ∧
      baseUniqueId ["TG000002", "TG000001"] =
        baseUniqueId ["TG000001", "TG000002"] ∧
      ∀ (E : Nat) (uniqueId : String),
        _async_migrator (sortSerialNumbers ["TG000002", "TG000001"]) E
            uniqueId =
          _async_migrator (sortSerialNumbers ["TG000001", "TG000002"]) E
            uniqueId) :=
  ⟨by decide, identifier_derivation_order_independent _ _ (by decide)⟩

/-- C3: a `MissingAttributeError` on a non-degraded cycle sets the degraded
flag, emits exactly one more user notice, returns the cached snapshot
unchanged, and every subsequent cycle — whatever the device would answer —
short-circuits to the same state and the same cached snapshot, so the notice
fires exactly once over the whole degraded period. -/
theorem schema_drift_degrades_permanently {α : Type _} (hasPassword : Bool)
    (st : RuntimeState α) (inp : CycleInput α) (rest : List (CycleInput α))
    (hA : st.apiChanged = false) (hF : inp.firstFetch = .missingAttribute) :
    (runCycle hasPassword st inp).1.apiChanged = true ∧
    (runCycle hasPassword st inp).1.notificationCount =
      st.notificationCount + 1 ∧
    (runCycle hasPassword st inp).1.coordinatorData = st.coordinatorData ∧
    (runCycle hasPassword st inp).2 = .ok st.coordinatorData ∧
    runCycles hasPassword (runCycle hasPassword st inp).1 rest =
      ((runCycle hasPassword st inp).1,
        rest.map fun _ => .ok st.coordinatorData) := by
  rw [runCycle_missingAttribute hasPassword st inp hA hF]
  exact ⟨rfl, rfl, rfl, rfl, runCycles_degraded hasPassword _ rest rfl⟩

/-- C3 (witness): drift on a cycle with cached snapshot `some 7` and one
prior notification count 0 gives notification count 1, and two further
cycles (one of which would even succeed) both serve `some 7` without change. -/
theorem schema_drift_degrades_permanently_witness :
    ((⟨3, false, some 7, 0⟩ : RuntimeState Nat).apiChanged = false ∧
      (⟨.missingAttribute, .ok, .success 9⟩ : CycleInput Nat).firstFetch =
        .missingAttribute) ∧
    ((runCycle true (⟨3, false, some 7, 0⟩ : RuntimeState Nat)
        ⟨.missingAttribute, .ok, .success 9⟩).1.apiChanged = true ∧
      (runCycle true (⟨3, false, some 7, 0⟩ : RuntimeState Nat)
        ⟨.missingAttribute, .ok, .success 9⟩).1.notificationCount = 0 + 1 ∧
      (runCycle true (⟨3, false, some 7, 0⟩ : RuntimeState Nat)
        ⟨.missingAttribute, .ok, .success 9⟩).1.coordinatorData = some 7 ∧
      (runCycle true (⟨3, false, some 7, 0⟩ : RuntimeState Nat)
        ⟨.missingAttribute, .ok, .success 9⟩).2 = .ok (some 7) ∧
      runCycles true
          (runCycle true (⟨3, false, some 7, 0⟩ : RuntimeState Nat)
            ⟨.missingAttribute, .ok, .success 9⟩).1
          [⟨.success 11, .ok, .success 11⟩, ⟨.unreachable, .ok, .success 12⟩] =
        ((runCycle true (⟨3, false, some 7, 0⟩ : RuntimeState Nat)
            ⟨.missingAttribute, .ok, .success 9⟩).1,
          ([⟨.success 11, .ok, .success 11⟩,
            ⟨.unreachable, .ok, .success 12⟩] : List (CycleInput Nat)).map
            fun _ => .ok (some 7))) :=
  ⟨⟨rfl, rfl⟩, schema_drift_degrades_permanently true
    (⟨3, false, some 7, 0⟩ : RuntimeState Nat)
    ⟨.missingAttribute, .ok, .success 9⟩
    [⟨.success 11, .ok, .success 11⟩, ⟨.unreachable, .ok, .success 12⟩]
    rfl rfl⟩

/-- C10: if schema drift is detected on the very first refresh cycle, before
any successful refresh has produced a snapshot, that cycle and every
subsequent cycle return `none` — the cached data that never existed — rather
than any snapshot. -/
theorem schema_drift_on_first_cycle_serves_none {α : Type _}
    (hasPassword : Bool) (inp : CycleInput α) (rest : List (CycleInput α))
    (hF : inp.firstFetch = .missingAttribute) :
    (runCycle hasPassword (initialState α) inp).2 = .ok none ∧
    (runCycle hasPassword (initialState α) inp).1.coordinatorData = none ∧
    (runCycles hasPassword (runCycle hasPassword (initialState α) inp).1
        rest).2 = rest.map fun _ => .ok none := by
  rw [runCycle_missingAttribute hasPassword (initialState α) inp rfl hF]
  refine ⟨rfl, rfl, ?_⟩
  rw [runCycles_degraded hasPassword _ rest rfl]
  rfl

/-- C10 (witness): drift on the first cycle of the fresh setup state serves
`none` then and on a later cycle that would even have succeeded. -/
theorem schema_drift_on_first_cycle_serves_none_witness :
    (⟨.missingAttribute, .ok, .success 9⟩ : CycleInput Nat).firstFetch =
      .missingAttribute ∧
    ((runCycle true (initialState Nat)
        ⟨.missingAttribute, .ok, .success 9⟩).2 = .ok none ∧
      (runCycle true (initialState Nat)
        ⟨.missingAttribute, .ok, .success 9⟩).1.coordinatorData = none ∧
      (runCycles true
          (runCycle true (initialState Nat)
            ⟨.missingAttribute, .ok, .success 9⟩).1
          [⟨.success 11, .ok, .success 11⟩]).2 =
        [(⟨.success 11, .ok, .success 11⟩ : CycleInput Nat)].map
          fun _ => .ok none) :=
  ⟨rfl, schema_drift_on_first_cycle_serves_none true
    ⟨.missingAttribute, .ok, .success 9⟩
    [⟨.success 11, .ok, .success 11⟩] rfl⟩

end Powerwall
